import Mathlib

/-!
Shallow embedding of the Imagine repository core: the localStorage-backed
history store, the image-enhancement service call with its error
classification, and the application controller submit action, together
with theorems settling the specification claims about them.
-/

set_option maxHeartbeats 1000000
set_option maxRecDepth 8000

/-- A JSON value, as produced by the JavaScript runtime builtin JSON.parse. -/
inductive Json where
  | null : Json
  | bool : Bool → Json
  | num : Int → Json
  | str : String → Json
  | arr : List Json → Json
  | obj : List (String × Json) → Json

/-- Structural boolean equality on JSON values. -/
def Json.beq : Json → Json → Bool
  | .null, .null => true
  | .bool a, .bool b => a == b
  | .num a, .num b => a == b
  | .str a, .str b => a == b
  | .arr [], .arr [] => true
  | .arr (x :: xs), .arr (y :: ys) => Json.beq x y && Json.beq (.arr xs) (.arr ys)
  | .obj [], .obj [] => true
  | .obj ((k1, v1) :: fs), .obj ((k2, v2) :: gs) =>
      k1 == k2 && Json.beq v1 v2 && Json.beq (.obj fs) (.obj gs)
  | _, _ => false

instance : BEq Json := ⟨Json.beq⟩

/-- Property lookup on a JavaScript object literal; the last binding of a
duplicated key wins, matching JavaScript object semantics. -/
def jsLookupLast (fs : List (String × Json)) (k : String) : Option Json :=
  match fs with
  | [] => none
  | (k2, v) :: rest =>
    match jsLookupLast rest k with
    | some r => some r
    | none => if k2 == k then some v else none

/-- Result of evaluating the property access item.id on a JSON value:
none models a TypeError (property access on null), some none models
undefined, and some (some v) a present value. -/
def jsGetId : Json → Option (Option Json)
  | Json.null => none
  | Json.obj fs => some (jsLookupLast fs "id")
  | _ => some none

/-- JavaScript strict equality between a property value (possibly
undefined) and a string: true exactly when the value is that string. -/
def jsStrictEqStr : Option Json → String → Bool
  | some (Json.str s), i => s == i
  | _, _ => false

/-- JavaScript array spread of a JSON value: arrays spread to their
elements, strings to their characters as one-character strings, and every
other value raises a TypeError, modelled as none. -/
def jsSpread : Json → Option (List Json)
  | Json.arr xs => some xs
  | Json.str s => some (s.toList.map (fun c => Json.str c.toString))
  | _ => none

/-- First element of a JSON value when it is a nonempty array. -/
def jsHead? : Json → Option Json
  | Json.arr (x :: _) => some x
  | _ => none

/-- A string persisted in localStorage, quotiented by JSON parsing: a blob
either parses to a JSON value or is not valid JSON. The runtime builtin
JSON.stringify always produces a blob that parses back to the same value
for the JSON values appearing in this development. -/
inductive StoredBlob where
  | ofJson : Json → StoredBlob
  | invalid : StoredBlob

/-- JSON.parse on a stored blob: the parsed value, or none when parsing
throws. The absent key and the empty string both land in the empty branch
of the callers, so the invalid constructor also covers the empty blob. -/
def jsonParse : StoredBlob → Option Json
  | .ofJson j => some j
  | .invalid => none

/-- JSON.stringify on a JSON value; total for these values, and the result
parses back to the same value. -/
def jsonStringify (j : Json) : StoredBlob := .ofJson j

/-- A history record, from the HistoryItem interface of the types module. -/
structure HistoryItem where
  id : String
  originalImage : String
  originalImageMimeType : String
  prompt : String
  enhancedImage : String
  timestamp : Int
  resolution : String
  deriving DecidableEq

/-- The JSON object a HistoryItem serializes to, with the field order of
the object literal built in the controller. -/
def encodeHistoryItem (h : HistoryItem) : Json :=
  Json.obj
    [ ("id", Json.str h.id)
    , ("originalImage", Json.str h.originalImage)
    , ("originalImageMimeType", Json.str h.originalImageMimeType)
    , ("prompt", Json.str h.prompt)
    , ("enhancedImage", Json.str h.enhancedImage)
    , ("timestamp", Json.num h.timestamp)
    , ("resolution", Json.str h.resolution) ]

/-- The blob a list of history items serializes to. -/
def encodeHistory (l : List HistoryItem) : StoredBlob :=
  jsonStringify (Json.arr (l.map encodeHistoryItem))

/-- getHistory from the history storage module: read the blob, JSON.parse
it, and return the empty array when the key is absent, the string is
empty, or parsing throws; a successfully parsed value is returned
unvalidated, because the source casts the parse result to the item list
type without checking its shape. -/
def getHistory (store : Option StoredBlob) : Json :=
  match store with
  | none => Json.arr []
  | some b =>
    match jsonParse b with
    | some j => j
    | none => Json.arr []

/-- saveHistoryItem from the history storage module: read the current
history, prepend the new item with an array spread, and write the
serialized list back; a TypeError from spreading a non-iterable corrupted
value is caught and leaves the store unchanged. -/
def saveHistoryItem (item : HistoryItem) (store : Option StoredBlob) : Option StoredBlob :=
  match jsSpread (getHistory store) with
  | some xs => some (jsonStringify (Json.arr (encodeHistoryItem item :: xs)))
  | none => store

/-- The filter keeping the elements whose id property is not strictly
equal to the given id, over the elements of the parsed history value;
none models a TypeError raised while reading the property from a null
element, which aborts the whole update. -/
def jsFilterById (i : String) : List Json → Option (List Json)
  | [] => some []
  | j :: rest =>
    match jsGetId j with
    | none => none
    | some v =>
      match jsFilterById i rest with
      | none => none
      | some ys => some (if jsStrictEqStr v i then ys else j :: ys)

/-- removeHistoryItem from the history storage module: read the history,
filter the id out, and write back the remainder; when the parsed value is
not an array (so it has no filter method) or an element access throws,
the error is caught and the store is left unchanged. -/
def removeHistoryItem (i : String) (store : Option StoredBlob) : Option StoredBlob :=
  match getHistory store with
  | Json.arr xs =>
    match jsFilterById i xs with
    | some ys => some (jsonStringify (Json.arr ys))
    | none => store
  | _ => store

/-- clearHistory from the history storage module: remove the stored key. -/
def clearHistory (_store : Option StoredBlob) : Option StoredBlob := none

/-- A store is well formed when the key is absent or the blob is the
serialization of some list of history items. -/
def WellFormedStore (store : Option StoredBlob) : Prop :=
  store = none ∨ ∃ l : List HistoryItem, store = some (encodeHistory l)

/-- A blob is a history serialization when it is the serialization of some
list of history items. -/
def IsHistorySerialization (b : StoredBlob) : Prop :=
  ∃ l : List HistoryItem, b = encodeHistory l

/-- A concrete history item used to instantiate theorems. -/
def sampleItem : HistoryItem :=
  { id := "id1"
  , originalImage := "orig"
  , originalImageMimeType := "image/png"
  , prompt := "make it blue"
  , enhancedImage := "enhanced"
  , timestamp := 1700000000000
  , resolution := "1K" }

/-- Whether the first list starts with the second one, character by
character. -/
def charsStartWith : List Char → List Char → Bool
  | [], _ => true
  | _ :: _, [] => false
  | a :: as, b :: bs => a == b && charsStartWith as bs

/-- Index of the first occurrence of the needle in the haystack. -/
def findSubIdx (needle : List Char) : List Char → Option Nat
  | [] => if needle.isEmpty then some 0 else none
  | c :: rest =>
    if charsStartWith needle (c :: rest) then some 0
    else
      match findSubIdx needle rest with
      | some i => some (i + 1)
      | none => none

/-- The JavaScript String.prototype.includes substring test. -/
def containsSub (needle hay : String) : Bool :=
  (findSubIdx needle.toList hay.toList).isSome

/-- Splitting of a character list at each occurrence of a nonempty
separator, with fuel bounding the recursion depth; the fuel used by
jsSplit always suffices. -/
def splitCharsFuel (sep : List Char) : Nat → List Char → List (List Char)
  | 0, s => [s]
  | Nat.succ fuel, s =>
    match findSubIdx sep s with
    | none => [s]
    | some i => s.take i :: splitCharsFuel sep fuel (s.drop (i + sep.length))

/-- The JavaScript String.prototype.split with a string separator and no
limit: an empty separator splits into the individual characters, and a
nonempty separator yields the segments between its occurrences. -/
def jsSplit (sep s : String) : List String :=
  if sep.isEmpty then s.toList.map (fun c => c.toString)
  else (splitCharsFuel sep.toList (s.toList.length + 1) s.toList).map (fun cs => String.mk cs)

/-- The detail extracted for a matched status marker: the source takes
element 1 of the message split by the marker followed by a colon and a
space, falling back to the whole message when that element is absent or
empty (the JavaScript or-else on a possibly undefined or empty string). -/
def splitDetail (sep msg : String) : String :=
  match (jsSplit sep msg).get? 1 with
  | some d => if d == "" then msg else d
  | none => msg

/-- JavaScript truthiness failure of an optional string: undefined and the
empty string are falsy. -/
def jsFalsyStr : Option String → Bool
  | none => true
  | some s => s == ""

/-- The JavaScript or-else on a string: the string itself when nonempty,
the default otherwise. -/
def jsOrDefault (s d : String) : String := if s == "" then d else s

/-- Inline binary data of a content part (types module). -/
structure InlineData where
  mimeType : String
  data : String
  deriving DecidableEq

/-- A content part of the provider response (ApiResponsePart in the types
module): optional inline image data and optional text. -/
structure ApiResponsePart where
  inlineData : Option InlineData
  text : Option String
  deriving DecidableEq

/-- A response candidate; content is optional in the provider SDK, and
holds the ordered list of parts. -/
structure Candidate where
  content : Option (List ApiResponsePart)
  deriving DecidableEq

/-- The provider response: an optional list of candidates. -/
structure GenResponse where
  candidates : Option (List Candidate)
  deriving DecidableEq

/-- The predicate of the find over response parts in the service module:
the part carries inline data whose data string is truthy (nonempty). -/
def hasInlineImageData (p : ApiResponsePart) : Bool :=
  match p.inlineData with
  | some d => d.data != ""
  | none => false

/-- The parts of the first candidate reached by the optional chain over
candidates, index 0 and content; none when any link is absent. -/
def firstCandidateParts (r : GenResponse) : Option (List ApiResponsePart) :=
  match r.candidates with
  | none => none
  | some cs =>
    match cs.head? with
    | none => none
    | some c => c.content

/-- The inline data string of the first part satisfying the find
predicate. -/
def firstInlineImageData (parts : List ApiResponsePart) : Option String :=
  match parts.find? hasInlineImageData with
  | some p => p.inlineData.map (fun d => d.data)
  | none => none

/-- The data of the image content part located by the service module scan:
the first part of the first candidate carrying nonempty inline data. -/
def imageContentPartData (r : GenResponse) : Option String :=
  match firstCandidateParts r with
  | some parts => firstInlineImageData parts
  | none => none

/-- The text accessor of the provider SDK response object, modelled from
its documented behavior: the concatenation of the text fields of the
first candidate parts, or none when the chain is absent or no part has a
text field. -/
def responseText (r : GenResponse) : Option String :=
  match firstCandidateParts r with
  | none => none
  | some parts =>
    let ts := parts.filterMap (fun p => p.text)
    if ts.isEmpty then none else some (String.join ts)

/-- The ApiError class of the types module: message, optional status code,
optional error type tag and optional detail payload. -/
structure ApiError where
  message : String
  statusCode : Option Nat
  errorType : Option String
  errorDetails : Option String
  deriving DecidableEq

/-- The message of the error thrown when a text-only response is seen. -/
def modelTextMessage (t : String) : String :=
  "Model returned text: \"" ++ t ++ "\". No image data found."

/-- The error thrown when neither image data nor text is found. -/
def noImageDataError : ApiError :=
  { message := "No enhanced image data found in the response."
  , statusCode := some 500
  , errorType := some "NO_IMAGE_DATA"
  , errorDetails := none }

/-- The classification in the catch block of the service module for a
thrown non-ApiError Error, keyed on its message: the credential-rejection
pattern first, then the four status markers in order, then the unknown
fallback. -/
def classifyError (msg : String) : ApiError :=
  if containsSub "Requested entity was not found." msg then
    { message := "API Key error: Please select a valid API key from a paid GCP project. You might need to re-select your API key."
    , statusCode := some 401
    , errorType := some "API_KEY_INVALID"
    , errorDetails := none }
  else
    let triple : Option Nat × String × Option String :=
      if containsSub "400 BAD_REQUEST" msg then
        (some 400, "BAD_REQUEST", some (splitDetail "400 BAD_REQUEST: " msg))
      else if containsSub "403 PERMISSION_DENIED" msg then
        (some 403, "PERMISSION_DENIED", some (splitDetail "403 PERMISSION_DENIED: " msg))
      else if containsSub "429 RESOURCE_EXHAUSTED" msg then
        (some 429, "RESOURCE_EXHAUSTED", some (splitDetail "429 RESOURCE_EXHAUSTED: " msg))
      else if containsSub "500 INTERNAL_SERVER_ERROR" msg then
        (some 500, "INTERNAL_SERVER_ERROR", some (splitDetail "500 INTERNAL_SERVER_ERROR: " msg))
      else (none, "UNKNOWN_ERROR", none)
    { message := jsOrDefault msg "An unknown error occurred during image enhancement."
    , statusCode := triple.1
    , errorType := some triple.2.1
    , errorDetails := triple.2.2 }

/-- What the awaited provider call does: return a response, throw an Error
carrying a message, or throw a non-Error value. -/
inductive NetworkOutcome where
  | response : GenResponse → NetworkOutcome
  | throwError : String → NetworkOutcome
  | throwOther : NetworkOutcome
  deriving DecidableEq

/-- How a call to the service function settles: a data string, a thrown
plain Error (only the missing-key precondition produces one), a thrown
ApiError, or a thrown non-Error value (never produced by the service but
handled by the controller catch). -/
inductive EnhanceResult where
  | ok : String → EnhanceResult
  | plainError : String → EnhanceResult
  | apiError : ApiError → EnhanceResult
  | otherThrown : EnhanceResult
  deriving DecidableEq

/-- The enhanceImage service function, shallowly embedded: the key check
before the try block, then the response scan and the catch-block
classification, with the awaited network call abstracted as the outcome
argument. The boolean records whether the network call was reached. -/
def enhanceImage (apiKey : Option String) (net : NetworkOutcome) : EnhanceResult × Bool :=
  if jsFalsyStr apiKey then (EnhanceResult.plainError "API_KEY is not set.", false)
  else
    match net with
    | NetworkOutcome.throwError msg => (EnhanceResult.apiError (classifyError msg), true)
    | NetworkOutcome.throwOther =>
      (EnhanceResult.apiError
        { message := "An unknown error occurred during image enhancement."
        , statusCode := some 500
        , errorType := some "UNKNOWN_ERROR"
        , errorDetails := none }, true)
    | NetworkOutcome.response r =>
      match imageContentPartData r with
      | some data => (EnhanceResult.ok data, true)
      | none =>
        match responseText r with
        | some t =>
          if t != "" then
            (EnhanceResult.apiError
              { message := modelTextMessage t
              , statusCode := some 200
              , errorType := some "MODEL_TEXT_RESPONSE"
              , errorDetails := some t }, true)
          else (EnhanceResult.apiError noImageDataError, true)
        | none => (EnhanceResult.apiError noImageDataError, true)

/-- The controller state touched or read by the submit action of the App
component: the uploaded image and its MIME type, the prompt, the enhanced
image slot, the loading flag, the error message, the credential-selected
flag, the selected resolution, the persisted history blob and the
in-memory history list state. Purely presentational state is omitted. -/
structure AppState where
  originalImage : Option String
  originalImageMimeType : Option String
  prompt : String
  enhancedImage : Option String
  isLoading : Bool
  error : Option String
  hasApiKeySelected : Bool
  selectedResolution : String
  historyStore : Option StoredBlob
  historyItems : Json

/-- Rendering of a possibly undefined string into a template literal:
undefined prints as the word undefined. -/
def jsTemplate : Option String → String
  | some s => s
  | none => "undefined"

/-- The handleEnhanceClick callback of the App component, shallowly
embedded: the three early-return guards, the pre-request state reset, and
the settlement of the awaited service call, whose outcome is passed as an
argument together with the fresh id and timestamp the success path uses.
The boolean records whether the service call (the network request) was
reached. -/
def handleEnhanceClick (apiKey : Option String) (newId : String) (now : Int)
    (outcome : EnhanceResult) (s : AppState) : AppState × Bool :=
  if jsFalsyStr s.originalImage || s.prompt == "" || jsFalsyStr s.originalImageMimeType then
    ({ s with error := some "Please upload an image and provide an enhancement prompt." }, false)
  else if jsFalsyStr apiKey then
    ({ s with hasApiKeySelected := false
            , error := some "API_KEY is not configured. Please select your API key." }, false)
  else if !s.hasApiKeySelected then
    ({ s with error := some "Please select your API key before enhancing images." }, false)
  else
    let s1 := { s with isLoading := true, error := none, enhancedImage := none }
    match outcome with
    | EnhanceResult.ok result =>
      let s2 := { s1 with enhancedImage := some result }
      if result != "" then
        let item : HistoryItem :=
          { id := newId
          , originalImage := s.originalImage.getD ""
          , originalImageMimeType := s.originalImageMimeType.getD ""
          , prompt := s.prompt
          , enhancedImage := result
          , timestamp := now
          , resolution := s.selectedResolution }
        let store2 := saveHistoryItem item s.historyStore
        ({ s2 with historyStore := store2
                 , historyItems := getHistory store2
                 , isLoading := false }, true)
      else ({ s2 with isLoading := false }, true)
    | EnhanceResult.apiError e =>
      if e.statusCode == some 401 || e.errorType == some "API_KEY_INVALID" then
        ({ s1 with hasApiKeySelected := false
                 , error := some ("API Key Invalid or Missing Permissions: " ++ e.message
                     ++ ". Please re-select your API key.")
                 , isLoading := false }, true)
      else if e.statusCode == some 403 || e.errorType == some "PERMISSION_DENIED" then
        ({ s1 with error := some "Permission Denied: Your API key might not have the necessary permissions. Please check your GCP project settings."
                 , isLoading := false }, true)
      else if e.statusCode == some 400 || e.errorType == some "BAD_REQUEST" then
        ({ s1 with error := some ("Invalid Request: The AI could not process your request. Please refine your prompt, image, or resolution. Details: "
                     ++ e.message)
                 , isLoading := false }, true)
      else if e.statusCode == some 429 || e.errorType == some "RESOURCE_EXHAUSTED" then
        ({ s1 with error := some "Rate Limit Exceeded: You\u0027ve sent too many requests. Please wait a moment and try again."
                 , isLoading := false }, true)
      else if e.errorType == some "MODEL_TEXT_RESPONSE" then
        ({ s1 with error := some ("The AI responded with text instead of an image: \""
                     ++ jsTemplate e.errorDetails ++ "\". Please adjust your prompt.")
                 , isLoading := false }, true)
      else
        ({ s1 with error := some ("An API error occurred: "
                     ++ jsOrDefault e.message "Unknown API error.")
                 , isLoading := false }, true)
    | EnhanceResult.plainError msg =>
      if containsSub "API Key error: Please select a valid API key" msg then
        ({ s1 with hasApiKeySelected := false, error := some msg, isLoading := false }, true)
      else
        ({ s1 with error := some ("An unexpected error occurred: " ++ msg)
                 , isLoading := false }, true)
    | EnhanceResult.otherThrown =>
      ({ s1 with error := some "An unknown error occurred during image enhancement."
               , isLoading := false }, true)

/-- Whether a settled service call is a failure. -/
def isFailureResult : EnhanceResult → Bool
  | EnhanceResult.ok _ => false
  | _ => true

/-- Whether a failure is classified as key-invalid by the controller
catch: an ApiError with status 401 or error type API_KEY_INVALID, or a
plain Error whose message carries the API-key error text. -/
def isKeyInvalidFailure : EnhanceResult → Bool
  | EnhanceResult.apiError e =>
      e.statusCode == some 401 || e.errorType == some "API_KEY_INVALID"
  | EnhanceResult.plainError msg =>
      containsSub "API Key error: Please select a valid API key" msg
  | _ => false

/-- A concrete controller state with an image, a MIME type and a prompt,
used to instantiate theorems. -/
def sampleReadyState : AppState :=
  { originalImage := some "imgdata"
  , originalImageMimeType := some "image/png"
  , prompt := "sharpen"
  , enhancedImage := some "previous-result"
  , isLoading := false
  , error := none
  , hasApiKeySelected := true
  , selectedResolution := "1K"
  , historyStore := none
  , historyItems := Json.arr [] }

theorem jsGetId_encode (x : HistoryItem) :
    jsGetId (encodeHistoryItem x) = some (some (Json.str x.id)) := rfl

theorem jsFilterById_encoded (i : String) (l : List HistoryItem) :
    jsFilterById i (l.map encodeHistoryItem)
      = some ((l.filter (fun x => x.id != i)).map encodeHistoryItem) := by
  induction l with
  | nil => rfl
  | cons x xs ih =>
    simp only [List.map_cons, jsFilterById, jsGetId_encode, ih, List.filter_cons]
    by_cases h : x.id == i
    · simp [jsStrictEqStr, h, bne]
    · simp only [Bool.not_eq_true] at h
      simp [jsStrictEqStr, h, bne]

theorem encodeHistoryItem_injective (a b : HistoryItem)
    (h : encodeHistoryItem a = encodeHistoryItem b) : a = b := by
  cases a
  cases b
  simp only [encodeHistoryItem, Json.obj.injEq, List.cons.injEq, Prod.mk.injEq,
    Json.str.injEq, Json.num.injEq, and_true, true_and] at h
  obtain ⟨h1, h2, h3, h4, h5, h6, h7⟩ := h
  subst h1 h2 h3 h4 h5 h6 h7
  rfl

/-- Claim C4 counterexample: on a stored blob that parses to the JSON
number five, saveHistoryItem throws while spreading the non-iterable
value, the write is skipped, and getHistory afterwards yields no sequence
whose first element is the saved item. -/
theorem saveHistoryItem_corrupt_store_counterexample :
    jsHead? (getHistory (saveHistoryItem sampleItem (some (StoredBlob.ofJson (Json.num 5)))))
      ≠ some (encodeHistoryItem sampleItem)
  ∧ getHistory (saveHistoryItem sampleItem (some (StoredBlob.ofJson (Json.num 5))))
      = Json.num 5 :=
  ⟨(fun h => nomatch h), rfl⟩

/-- Claim C4 (amended): over a well-formed store, the history operations
satisfy the round-trip laws: after saving X the first listed element is
the serialization of X, and serialization is injective, so X is recovered
field for field; saving A then B lists B then A ahead of the prior
contents; after removing an id no listed element carries that id; and
after clearing the listing is empty. -/
theorem history_roundtrip_amended (store : Option StoredBlob)
    (hwf : WellFormedStore store) (X A B : HistoryItem) (i : String) :
    jsHead? (getHistory (saveHistoryItem X store)) = some (encodeHistoryItem X)
  ∧ (∃ rest, getHistory (saveHistoryItem B (saveHistoryItem A store))
      = Json.arr (encodeHistoryItem B :: encodeHistoryItem A :: rest))
  ∧ (∃ ys, getHistory (removeHistoryItem i store) = Json.arr ys
      ∧ ∀ y ∈ ys, jsGetId y ≠ some (some (Json.str i)))
  ∧ getHistory (clearHistory store) = Json.arr []
  ∧ (∀ a b : HistoryItem, encodeHistoryItem a = encodeHistoryItem b → a = b) := by
  rcases hwf with rfl | ⟨l, rfl⟩
  · exact ⟨rfl, ⟨[], rfl⟩, ⟨[], rfl, by simp⟩, rfl, encodeHistoryItem_injective⟩
  · refine ⟨rfl, ⟨l.map encodeHistoryItem, rfl⟩, ?_, rfl, encodeHistoryItem_injective⟩
    refine ⟨(l.filter (fun x => x.id != i)).map encodeHistoryItem, ?_, ?_⟩
    · show getHistory (removeHistoryItem i (some (encodeHistory l))) = _
      simp [removeHistoryItem, getHistory, encodeHistory, jsonStringify, jsonParse,
        jsFilterById_encoded]
    · intro y hy
      simp only [List.mem_map] at hy
      obtain ⟨x, hx, rfl⟩ := hy
      simp only [List.mem_filter] at hx
      rw [jsGetId_encode]
      intro hcontr
      have hxi : x.id = i := by simpa using hcontr
      have hne : x.id ≠ i := by simpa using hx.2
      exact hne hxi

/-- Witness for the amended C4 theorem at the empty store and a concrete
item. -/
theorem history_roundtrip_amended_witness :
    WellFormedStore none
  ∧ jsHead? (getHistory (saveHistoryItem sampleItem none))
      = some (encodeHistoryItem sampleItem) :=
  ⟨Or.inl rfl,
   (history_roundtrip_amended none (Or.inl rfl) sampleItem sampleItem sampleItem "id1").1⟩

/-- Claim C5 counterexample: the blob holding the JSON number five is not
the serialization of any history item list, yet getHistory returns it as
is through the unchecked cast, not an empty sequence. -/
theorem getHistory_malformed_counterexample :
    ¬ IsHistorySerialization (StoredBlob.ofJson (Json.num 5))
  ∧ getHistory (some (StoredBlob.ofJson (Json.num 5))) = Json.num 5
  ∧ getHistory (some (StoredBlob.ofJson (Json.num 5))) ≠ Json.arr [] :=
  ⟨fun hser => by
      obtain ⟨l, h⟩ := hser
      cases l <;> simp [encodeHistory, jsonStringify] at h,
   rfl, (fun h => nomatch h)⟩

/-- Claim C5 (amended): getHistory yields the empty sequence when the key
is absent or the stored blob is not valid JSON, so parsing throws; a blob
that parses to a JSON value of the wrong shape is instead returned
unvalidated. -/
theorem getHistory_invalid_json_empty (b : StoredBlob) (hb : jsonParse b = none) :
    getHistory (some b) = Json.arr [] ∧ getHistory none = Json.arr [] := by
  exact ⟨by simp [getHistory, hb], rfl⟩

/-- Witness for the amended C5 theorem at the invalid blob. -/
theorem getHistory_invalid_json_empty_witness :
    jsonParse StoredBlob.invalid = none
  ∧ getHistory (some StoredBlob.invalid) = Json.arr [] :=
  ⟨rfl, (getHistory_invalid_json_empty StoredBlob.invalid rfl).1⟩

theorem find_skips_failing_front {α : Type} (f : α → Bool) (pre : List α) (p : α)
    (post : List α) (hpre : ∀ q ∈ pre, f q = false) (hp : f p = true) :
    (pre ++ p :: post).find? f = some p := by
  induction pre with
  | nil => simpa using List.find?_cons_of_pos post hp
  | cons a as ih =>
    have ha : f a = false := hpre a (List.mem_cons_self a as)
    rw [List.cons_append, List.find?_cons_of_neg _ (by simp [ha])]
    exact ih (fun q hq => hpre q (List.mem_cons_of_mem a hq))

/-- Claim C1: with a configured key, when the part list of the first
candidate holds a part carrying inline image bytes (nonempty inline
data), enhanceImage returns exactly the data of the first such part,
whatever parts precede or follow it. -/
theorem enhanceImage_returns_first_inline_image (key : String) (hkey : key ≠ "")
    (r : GenResponse) (parts pre post : List ApiResponsePart) (p : ApiResponsePart)
    (d : InlineData)
    (hparts : firstCandidateParts r = some parts)
    (hsplit : parts = pre ++ p :: post)
    (hdata : p.inlineData = some d) (hne : d.data ≠ "")
    (hpre : ∀ q ∈ pre, hasInlineImageData q = false) :
    enhanceImage (some key) (NetworkOutcome.response r) = (EnhanceResult.ok d.data, true) := by
  have hfalsy : jsFalsyStr (some key) = false := by simp [jsFalsyStr, hkey]
  have hp : hasInlineImageData p = true := by simp [hasInlineImageData, hdata, hne]
  have hfind : parts.find? hasInlineImageData = some p := by
    rw [hsplit]
    exact find_skips_failing_front _ pre p post hpre hp
  have himg : imageContentPartData r = some d.data := by
    simp [imageContentPartData, hparts, firstInlineImageData, hfind, hdata]
  simp [enhanceImage, hfalsy, himg]

/-- An inline-image part used to instantiate theorems. -/
def sampleImagePart : ApiResponsePart :=
  { inlineData := some { mimeType := "image/png", data := "IMGDATA" }, text := none }

/-- A text part used to instantiate theorems. -/
def sampleTextPart : ApiResponsePart :=
  { inlineData := none, text := some "here is your image" }

/-- A response whose first candidate holds a text part, then an image
part, then another text part. -/
def sampleResponse : GenResponse :=
  { candidates := some [{ content := some [sampleTextPart, sampleImagePart, sampleTextPart] }] }

/-- Witness for the C1 theorem at a concrete response with text parts on
both sides of the image part. -/
theorem enhanceImage_returns_first_inline_image_witness :
    enhanceImage (some "key") (NetworkOutcome.response sampleResponse)
      = (EnhanceResult.ok "IMGDATA", true) :=
  enhanceImage_returns_first_inline_image "key" (by decide) sampleResponse
    [sampleTextPart, sampleImagePart, sampleTextPart] [sampleTextPart] [sampleTextPart]
    sampleImagePart { mimeType := "image/png", data := "IMGDATA" }
    rfl rfl rfl (by decide) (by decide)

/-- Claim C2: with a configured key and a response with no inline-image
part, enhanceImage fails with kind MODEL_TEXT_RESPONSE, non-fatal status
200 and the response text as detail when the response carries nonempty
text, and with kind NO_IMAGE_DATA and fatal-class status 500 when it
carries neither image data nor text. -/
theorem enhanceImage_no_image_classification (key : String) (hkey : key ≠ "")
    (r : GenResponse) (himg : imageContentPartData r = none) :
    (∀ t, responseText r = some t → t ≠ "" →
      enhanceImage (some key) (NetworkOutcome.response r)
        = (EnhanceResult.apiError
            { message := modelTextMessage t
            , statusCode := some 200
            , errorType := some "MODEL_TEXT_RESPONSE"
            , errorDetails := some t }, true))
  ∧ ((responseText r = none ∨ responseText r = some "") →
      enhanceImage (some key) (NetworkOutcome.response r)
        = (EnhanceResult.apiError noImageDataError, true)) := by
  have hfalsy : jsFalsyStr (some key) = false := by simp [jsFalsyStr, hkey]
  constructor
  · intro t ht hne
    simp [enhanceImage, hfalsy, himg, ht, hne]
  · rintro (ht | ht) <;> simp [enhanceImage, hfalsy, himg, ht]

/-- A response whose first candidate holds only a text part. -/
def sampleTextOnlyResponse : GenResponse :=
  { candidates := some [{ content := some [sampleTextPart] }] }

/-- Witness for the C2 theorem at a concrete text-only response. -/
theorem enhanceImage_no_image_classification_witness :
    enhanceImage (some "key") (NetworkOutcome.response sampleTextOnlyResponse)
      = (EnhanceResult.apiError
          { message := modelTextMessage "here is your image"
          , statusCode := some 200
          , errorType := some "MODEL_TEXT_RESPONSE"
          , errorDetails := some "here is your image" }, true) :=
  (enhanceImage_no_image_classification "key" (by decide) sampleTextOnlyResponse rfl).1
    "here is your image" rfl (by decide)

/-- Claim C8: with no configured key, enhanceImage throws the plain
not-configured Error, not a classified ApiError, and the network call is
never reached, whatever the network would have done. -/
theorem enhanceImage_requires_api_key (net : NetworkOutcome) :
    enhanceImage none net = (EnhanceResult.plainError "API_KEY is not set.", false) := rfl

/-- Claim C9: enhanceImage inspects only the first candidate: when the
first candidate yields no inline image data, even though a candidate at
index one or later holds an inline-image part, the call fails with the
text-only or the no-image error rather than returning those bytes. -/
theorem enhanceImage_ignores_later_candidates (key : String) (hkey : key ≠ "")
    (r : GenResponse) (himg : imageContentPartData r = none)
    (cs : List Candidate) (hcs : r.candidates = some cs)
    (i : Nat) (hi : 1 ≤ i) (c : Candidate) (hc : cs.get? i = some c)
    (parts : List ApiResponsePart) (hparts : c.content = some parts)
    (p : ApiResponsePart) (hmem : p ∈ parts) (hp : hasInlineImageData p = true) :
    ∃ e, enhanceImage (some key) (NetworkOutcome.response r)
        = (EnhanceResult.apiError e, true)
      ∧ (e.errorType = some "MODEL_TEXT_RESPONSE" ∨ e.errorType = some "NO_IMAGE_DATA") := by
  have hfalsy : jsFalsyStr (some key) = false := by simp [jsFalsyStr, hkey]
  rcases hrt : responseText r with _ | t
  · exact ⟨noImageDataError, by simp [enhanceImage, hfalsy, himg, hrt], Or.inr rfl⟩
  · by_cases hne : t = ""
    · subst hne
      exact ⟨noImageDataError, by simp [enhanceImage, hfalsy, himg, hrt], Or.inr rfl⟩
    · refine ⟨{ message := modelTextMessage t
              , statusCode := some 200
              , errorType := some "MODEL_TEXT_RESPONSE"
              , errorDetails := some t }, ?_, Or.inl rfl⟩
      simp [enhanceImage, hfalsy, himg, hrt, hne]

/-- A response whose first candidate has an empty part list while the
second candidate carries the inline-image part. -/
def sampleLaterImageResponse : GenResponse :=
  { candidates := some
      [ { content := some [] }
      , { content := some [sampleImagePart] } ] }

/-- Witness for the C9 theorem at a concrete response whose image sits in
the second candidate. -/
theorem enhanceImage_ignores_later_candidates_witness :
    ∃ e, enhanceImage (some "key") (NetworkOutcome.response sampleLaterImageResponse)
        = (EnhanceResult.apiError e, true)
      ∧ (e.errorType = some "MODEL_TEXT_RESPONSE" ∨ e.errorType = some "NO_IMAGE_DATA") :=
  enhanceImage_ignores_later_candidates "key" (by decide) sampleLaterImageResponse rfl
    _ rfl 1 (by decide) { content := some [sampleImagePart] } rfl
    [sampleImagePart] rfl sampleImagePart (by decide) (by decide)

/-- Claim C3 counterexample: the message containing the bad-request marker
with no colon-and-space suffix after it is classified as BAD_REQUEST, but
the detail is the whole message through the or-else fallback, not the
empty substring that follows the marker. -/
theorem classifyError_detail_counterexample :
    classifyError "boom 400 BAD_REQUEST"
      = { message := "boom 400 BAD_REQUEST"
        , statusCode := some 400
        , errorType := some "BAD_REQUEST"
        , errorDetails := some "boom 400 BAD_REQUEST" }
  ∧ (classifyError "boom 400 BAD_REQUEST").errorDetails ≠ some "" := by
  exact ⟨by decide, by decide⟩

/-- Claim C3 (amended): classification of a thrown non-ApiError Error is a
total function into ApiError values with first-match priority: the
credential-rejection pattern yields the API_KEY_INVALID error; otherwise
the first status marker found among 400, 403, 429 and 500 sets the code
and the kind, and the detail is the second segment of the message split
by the marker followed by a colon and a space, falling back to the whole
message when that segment is absent or empty; an unmatched message yields
UNKNOWN_ERROR with the message passed through when it is nonempty and a
fixed fallback when it is empty. -/
theorem classifyError_first_match_amended (msg : String) :
    (containsSub "Requested entity was not found." msg = true →
      classifyError msg
        = { message := "API Key error: Please select a valid API key from a paid GCP project. You might need to re-select your API key."
          , statusCode := some 401
          , errorType := some "API_KEY_INVALID"
          , errorDetails := none })
  ∧ (containsSub "Requested entity was not found." msg = false →
      containsSub "400 BAD_REQUEST" msg = true →
      classifyError msg
        = { message := jsOrDefault msg "An unknown error occurred during image enhancement."
          , statusCode := some 400
          , errorType := some "BAD_REQUEST"
          , errorDetails := some (splitDetail "400 BAD_REQUEST: " msg) })
  ∧ (containsSub "Requested entity was not found." msg = false →
      containsSub "400 BAD_REQUEST" msg = false →
      containsSub "403 PERMISSION_DENIED" msg = true →
      classifyError msg
        = { message := jsOrDefault msg "An unknown error occurred during image enhancement."
          , statusCode := some 403
          , errorType := some "PERMISSION_DENIED"
          , errorDetails := some (splitDetail "403 PERMISSION_DENIED: " msg) })
  ∧ (containsSub "Requested entity was not found." msg = false →
      containsSub "400 BAD_REQUEST" msg = false →
      containsSub "403 PERMISSION_DENIED" msg = false →
      containsSub "429 RESOURCE_EXHAUSTED" msg = true →
      classifyError msg
        = { message := jsOrDefault msg "An unknown error occurred during image enhancement."
          , statusCode := some 429
          , errorType := some "RESOURCE_EXHAUSTED"
          , errorDetails := some (splitDetail "429 RESOURCE_EXHAUSTED: " msg) })
  ∧ (containsSub "Requested entity was not found." msg = false →
      containsSub "400 BAD_REQUEST" msg = false →
      containsSub "403 PERMISSION_DENIED" msg = false →
      containsSub "429 RESOURCE_EXHAUSTED" msg = false →
      containsSub "500 INTERNAL_SERVER_ERROR" msg = true →
      classifyError msg
        = { message := jsOrDefault msg "An unknown error occurred during image enhancement."
          , statusCode := some 500
          , errorType := some "INTERNAL_SERVER_ERROR"
          , errorDetails := some (splitDetail "500 INTERNAL_SERVER_ERROR: " msg) })
  ∧ (containsSub "Requested entity was not found." msg = false →
      containsSub "400 BAD_REQUEST" msg = false →
      containsSub "403 PERMISSION_DENIED" msg = false →
      containsSub "429 RESOURCE_EXHAUSTED" msg = false →
      containsSub "500 INTERNAL_SERVER_ERROR" msg = false →
      classifyError msg
        = { message := jsOrDefault msg "An unknown error occurred during image enhancement."
          , statusCode := none
          , errorType := some "UNKNOWN_ERROR"
          , errorDetails := none }) := by
  refine ⟨?_, ?_, ?_, ?_, ?_, ?_⟩
  · intro h1
    simp [classifyError, h1]
  · intro h1 h2
    simp [classifyError, h1, h2]
  · intro h1 h2 h3
    simp [classifyError, h1, h2, h3]
  · intro h1 h2 h3 h4
    simp [classifyError, h1, h2, h3, h4]
  · intro h1 h2 h3 h4 h5
    simp [classifyError, h1, h2, h3, h4, h5]
  · intro h1 h2 h3 h4 h5
    simp [classifyError, h1, h2, h3, h4, h5]

/-- Witness for the amended C3 theorem at a concrete permission-denied
message with a colon-separated detail. -/
theorem classifyError_first_match_amended_witness :
    containsSub "Requested entity was not found." "x 403 PERMISSION_DENIED: quota" = false
  ∧ containsSub "400 BAD_REQUEST" "x 403 PERMISSION_DENIED: quota" = false
  ∧ containsSub "403 PERMISSION_DENIED" "x 403 PERMISSION_DENIED: quota" = true
  ∧ classifyError "x 403 PERMISSION_DENIED: quota"
      = { message := "x 403 PERMISSION_DENIED: quota"
        , statusCode := some 403
        , errorType := some "PERMISSION_DENIED"
        , errorDetails := some "quota" } := by
  refine ⟨by decide, by decide, by decide, ?_⟩
  have h := (classifyError_first_match_amended "x 403 PERMISSION_DENIED: quota").2.2.1
    (by decide) (by decide) (by decide)
  rw [h]
  decide

/-- Claim C6: when the image, the prompt or the MIME type is missing or
empty, the submit action sets the guidance error and returns without
reaching the service call. -/
theorem handleEnhanceClick_guard_no_network (apiKey : Option String) (newId : String)
    (now : Int) (outcome : EnhanceResult) (s : AppState)
    (h : jsFalsyStr s.originalImage = true ∨ s.prompt = ""
       ∨ jsFalsyStr s.originalImageMimeType = true) :
    handleEnhanceClick apiKey newId now outcome s
      = ({ s with error := some "Please upload an image and provide an enhancement prompt." },
         false) := by
  have hb : (jsFalsyStr s.originalImage || s.prompt == ""
      || jsFalsyStr s.originalImageMimeType) = true := by
    rcases h with h | h | h <;> simp [h]
  simp [handleEnhanceClick, hb]

/-- A ready controller state with the prompt cleared. -/
def sampleNoPromptState : AppState := { sampleReadyState with prompt := "" }

/-- Witness for the C6 theorem at the concrete state with an empty
prompt. -/
theorem handleEnhanceClick_guard_no_network_witness :
    handleEnhanceClick (some "key") "id2" 0 EnhanceResult.otherThrown sampleNoPromptState
      = ({ sampleNoPromptState with
            error := some "Please upload an image and provide an enhancement prompt." },
         false) :=
  handleEnhanceClick_guard_no_network (some "key") "id2" 0 EnhanceResult.otherThrown
    sampleNoPromptState (Or.inr (Or.inl rfl))

/-- Claim C7: when the submit guards pass and the service call fails, the
credential-selected flag is reset to false exactly when the failure is
classified key-invalid, and is left unchanged otherwise. -/
theorem handleEnhanceClick_key_invalid_resets_flag (apiKey : Option String)
    (newId : String) (now : Int) (outcome : EnhanceResult) (s : AppState)
    (h1 : jsFalsyStr s.originalImage = false) (h2 : s.prompt ≠ "")
    (h3 : jsFalsyStr s.originalImageMimeType = false)
    (h4 : jsFalsyStr apiKey = false) (h5 : s.hasApiKeySelected = true)
    (hfail : isFailureResult outcome = true) :
    (isKeyInvalidFailure outcome = true →
      (handleEnhanceClick apiKey newId now outcome s).1.hasApiKeySelected = false)
  ∧ (isKeyInvalidFailure outcome = false →
      (handleEnhanceClick apiKey newId now outcome s).1.hasApiKeySelected
        = s.hasApiKeySelected) := by
  cases outcome with
  | ok result => simp [isFailureResult] at hfail
  | apiError e =>
    constructor
    · intro hk
      simp only [isKeyInvalidFailure] at hk
      simp [handleEnhanceClick, h1, h2, h3, h4, h5, hk]
    · intro hk
      simp only [isKeyInvalidFailure] at hk
      simp only [handleEnhanceClick, h1, h2, h3, h4, h5, hk, Bool.false_eq_true,
        bne_iff_ne, ne_eq, Bool.or_self, Bool.not_true, if_false, ite_false]
      simp [h2, hk]
      repeat' split
      all_goals rfl
  | plainError msg =>
    constructor
    · intro hk
      simp only [isKeyInvalidFailure] at hk
      simp [handleEnhanceClick, h1, h2, h3, h4, h5, hk]
    · intro hk
      simp only [isKeyInvalidFailure] at hk
      simp [handleEnhanceClick, h1, h2, h3, h4, h5, hk]
  | otherThrown =>
    constructor
    · intro hk
      simp [isKeyInvalidFailure] at hk
    · intro hk
      simp [handleEnhanceClick, h1, h2, h3, h4, h5]

/-- Witness for the C7 theorem at a concrete 401 ApiError failure, from a
ready state whose flag starts true. -/
theorem handleEnhanceClick_key_invalid_resets_flag_witness :
    (handleEnhanceClick (some "key") "id3" 0
        (EnhanceResult.apiError
          { message := "bad key", statusCode := some 401
          , errorType := none, errorDetails := none })
        sampleReadyState).1.hasApiKeySelected = false :=
  (handleEnhanceClick_key_invalid_resets_flag (some "key") "id3" 0
      (EnhanceResult.apiError
        { message := "bad key", statusCode := some 401
        , errorType := none, errorDetails := none })
      sampleReadyState
      (by decide) (by decide) (by decide) (by decide) rfl rfl).1 rfl

/-- Claim C10: the submit action clears the enhanced image and the error
before the request, so after any failed call the enhanced-image slot is
empty and an error message is set; a previously displayed result is never
restored on failure. -/
theorem handleEnhanceClick_failure_clears_enhanced (apiKey : Option String)
    (newId : String) (now : Int) (outcome : EnhanceResult) (s : AppState)
    (h1 : jsFalsyStr s.originalImage = false) (h2 : s.prompt ≠ "")
    (h3 : jsFalsyStr s.originalImageMimeType = false)
    (h4 : jsFalsyStr apiKey = false) (h5 : s.hasApiKeySelected = true)
    (hfail : isFailureResult outcome = true) :
    (handleEnhanceClick apiKey newId now outcome s).1.enhancedImage = none
  ∧ ∃ m, (handleEnhanceClick apiKey newId now outcome s).1.error = some m := by
  cases outcome with
  | ok result => simp [isFailureResult] at hfail
  | apiError e =>
    simp only [handleEnhanceClick, h1, h3, h4, h5]
    simp [h2]
    repeat' split
    all_goals exact ⟨rfl, _, rfl⟩
  | plainError msg =>
    simp only [handleEnhanceClick, h1, h3, h4, h5]
    simp [h2]
    repeat' split
    all_goals exact ⟨rfl, _, rfl⟩
  | otherThrown =>
    simp only [handleEnhanceClick, h1, h3, h4, h5]
    simp [h2]

/-- Witness for the C10 theorem at a concrete failure, from a state that
still displays a previous result. -/
theorem handleEnhanceClick_failure_clears_enhanced_witness :
    sampleReadyState.enhancedImage = some "previous-result"
  ∧ (handleEnhanceClick (some "key") "id4" 0
        (EnhanceResult.apiError noImageDataError) sampleReadyState).1.enhancedImage = none :=
  ⟨rfl,
   (handleEnhanceClick_failure_clears_enhanced (some "key") "id4" 0
      (EnhanceResult.apiError noImageDataError) sampleReadyState
      (by decide) (by decide) (by decide) (by decide) rfl rfl).1⟩
